import Mathlib

/-!
Verification of the ObbSeg validation engine
(`ultralytics/models/yolo/obb_seg/val.py`): a shallow embedding of the
per-sample matching and statistics-accumulation code, with the external
kernels the file calls (probabilistic IoU, mask IoU, the greedy matcher,
box rescaling, mask decoding, the COCO cross-check) modelled from the
design document where their code lies outside the file under study.

Tensors are embedded as rational-valued nested lists: a detection tensor
row is a `List ℚ` (`[x1, y1, x2, y2, conf, cls, coeff…, angle]`), a mask
is a rational raster `List (List ℚ)`, boolean matrices are
`List (List Bool)`.
-/

namespace ObbSeg

abbrev Row := List ℚ
abbrev Mat := List Row
abbrev Mask := List (List ℚ)

/-- Python slice `m[:, a:b]` on a 2-D tensor. -/
def sliceCols (a b : Nat) (m : Mat) : Mat :=
  m.map (fun r => (r.take b).drop a)

/-- Python slice `m[:, -1:]`: the last column, kept 2-D. -/
def sliceLastCol (m : Mat) : Mat :=
  m.map (fun r => [r.getLastD 0])

/-- `torch.cat([a, b], dim=-1)`: rowwise concatenation. -/
def catColsM (a b : Mat) : Mat :=
  List.zipWith (· ++ ·) a b

/-- Python `m[:, j]`: one column as a vector. -/
def colAt (j : Nat) (m : Mat) : Row :=
  m.map (fun r => r.getD j 0)

/-- Shape `(H, W)` of one mask raster. -/
def maskShape (m : Mask) : Nat × Nat :=
  (m.length, (m.headD []).length)

/-- `shape[1:]` of a mask stack `(n, H, W)` (all rasters share a shape). -/
def stackShape (s : List Mask) : Nat × Nat :=
  maskShape (s.headD [])

/-- Elementwise binarization `.gt_(0.5)` of a raster. -/
def binarizeMask (m : Mask) : Mask :=
  m.map (fun row => row.map (fun v => if 1/2 < v then (1 : ℚ) else 0))

/-- `torch.where(raster == c, 1.0, 0.0)`: the indicator raster of value `c`. -/
def indicatorMask (c : ℚ) (m : Mask) : Mask :=
  m.map (fun row => row.map (fun v => if v = c then (1 : ℚ) else 0))

/-- Pixel read with clamping semantics, default `0` out of range. -/
def getPix (m : Mask) (i j : Nat) : ℚ :=
  (m.getD i []).getD j 0

/-- Source coordinate of output index `j` for `align_corners=False`
bilinear resampling: `(j + 1/2) * (in/out) - 1/2`, clamped at `0`. -/
def srcIndex (inSize outSize : Nat) (j : Nat) : ℚ :=
  max 0 (((j : ℚ) + 1/2) * (inSize : ℚ) / (outSize : ℚ) - 1/2)

/-- One bilinear sample of a raster at rational source coordinates. -/
def bilinearSample (m : Mask) (y x : ℚ) : ℚ :=
  let H := m.length
  let W := (m.headD []).length
  let y0 := min (Int.toNat ⌊y⌋) (H - 1)
  let y1 := min (y0 + 1) (H - 1)
  let x0 := min (Int.toNat ⌊x⌋) (W - 1)
  let x1 := min (x0 + 1) (W - 1)
  let ly := y - (Int.toNat ⌊y⌋ : ℚ)
  let lx := x - (Int.toNat ⌊x⌋ : ℚ)
  (1 - ly) * ((1 - lx) * getPix m y0 x0 + lx * getPix m y0 x1)
    + ly * ((1 - lx) * getPix m y1 x0 + lx * getPix m y1 x1)

/-- `F.interpolate(·, (outH, outW), mode="bilinear", align_corners=False)`
on one raster. -/
def interpolate (m : Mask) (outH outW : Nat) : Mask :=
  (List.range outH).map (fun i =>
    (List.range outW).map (fun j =>
      bilinearSample m (srcIndex m.length outH i)
        (srcIndex (m.headD []).length outW j)))

/-- Flatten a raster (`view(n, -1)` for one row of the stack). -/
def flatMask (m : Mask) : Row :=
  m.flatten

def dotQ (a b : Row) : ℚ :=
  (List.zipWith (· * ·) a b).sum

def maskSum (m : Mask) : ℚ :=
  (m.map List.sum).sum

/-- Modelled from the spec: the pixel-mask IoU kernel of §4.1
(`mask_iou` lives in `ultralytics/utils/metrics.py`, outside the file
under study).  Each raster is flattened; the `M×N` matrix holds
`intersection / (area(A) + area(B) - intersection)` with the `0/0 → 0`
guard the spec requires. -/
def maskIoU (gms pms : List Mask) : Mat :=
  gms.map (fun g => pms.map (fun p =>
    let i := dotQ (flatMask g) (flatMask p)
    let u := maskSum g + maskSum p - i
    if u = 0 then 0 else i / u))

/-- Modelled from the spec: the rotated-box probabilistic IoU of §4.1
(`batch_probiou` lives in `ultralytics/utils/metrics.py`, outside the
file under study).  The real kernel maps a Bhattacharyya distance of the
two Gaussian-ellipse approximations through transcendental functions;
this rational model keeps the spec's stated interface and properties —
a similarity in `[0, 1]` over full 5-tuples `(cx, cy, w, h, θ)`, equal
to `1` exactly on identical boxes and strictly decreasing as the boxes
diverge in center, extent, or orientation. -/
def probiouPair (g d : Row) : ℚ :=
  let dx := g.getD 0 0 - d.getD 0 0
  let dy := g.getD 1 0 - d.getD 1 0
  let dw := g.getD 2 0 - d.getD 2 0
  let dh := g.getD 3 0 - d.getD 3 0
  let dt := g.getD 4 0 - d.getD 4 0
  1 / (1 + dx ^ 2 + dy ^ 2 + dw ^ 2 + dh ^ 2 + dt ^ 2)

/-- The `M×N` probabilistic-IoU similarity matrix (see `probiouPair`). -/
def batchProbiou (gt dets : Mat) : Mat :=
  gt.map (fun g => dets.map (fun d => probiouPair g d))

/-- Modelled from the spec: the axis-aligned box IoU of §4.1 (`box_iou`
lives in `ultralytics/utils/metrics.py`, outside the file under study):
standard intersection-over-union of two `[x1, y1, x2, y2]` rectangles. -/
def boxIoUPair (a b : Row) : ℚ :=
  let ix := max 0 (min (a.getD 2 0) (b.getD 2 0) - max (a.getD 0 0) (b.getD 0 0))
  let iy := max 0 (min (a.getD 3 0) (b.getD 3 0) - max (a.getD 1 0) (b.getD 1 0))
  let inter := ix * iy
  let areaA := (a.getD 2 0 - a.getD 0 0) * (a.getD 3 0 - a.getD 1 0)
  let areaB := (b.getD 2 0 - b.getD 0 0) * (b.getD 3 0 - b.getD 1 0)
  let u := areaA + areaB - inter
  if u = 0 then 0 else inter / u

/-- The `M×N` axis-aligned IoU matrix (see `boxIoUPair`). -/
def boxIoU (gt dets : Mat) : Mat :=
  gt.map (fun g => dets.map (fun d => boxIoUPair g d))

/-! ## The Matcher (§4.2), modelled from the spec

`match_predictions` is inherited from `DetectionValidator`, outside the
file under study; it is modelled here from §4.2 of the design: zero the
similarity entries whose classes disagree, then per threshold run a
greedy one-to-one assignment taking the globally best remaining pair
first, and mark each matched prediction's row at that threshold. -/

/-- Entry `S[g][p]` of a similarity matrix, default `0`. -/
def entryQ (S : Mat) (g p : Nat) : ℚ :=
  (S.getD g []).getD p 0

/-- All `(gt, pred)` index pairs of an `M×N` matrix. -/
def pairList (M N : Nat) : List (Nat × Nat) :=
  (List.range M).flatMap (fun g => (List.range N).map (fun p => (g, p)))

/-- The best-overlap candidate pair among those with similarity `≥ t`
(first pair in row-major order on ties). -/
def pickBest (S : Mat) (t : ℚ) (cands : List (Nat × Nat)) : Option (Nat × Nat) :=
  cands.foldl
    (fun best gp =>
      match best with
      | none => if t ≤ entryQ S gp.1 gp.2 then some gp else none
      | some b => if entryQ S b.1 b.2 < entryQ S gp.1 gp.2 then some gp else some b)
    none

/-- Greedy one-to-one assignment: repeatedly take the globally best
remaining pair above threshold and retire its row and column. -/
def greedyStep (S : Mat) (t : ℚ) :
    Nat → List (Nat × Nat) → List (Nat × Nat) → List (Nat × Nat)
  | 0, _, acc => acc
  | fuel + 1, cands, acc =>
    match pickBest S t cands with
    | none => acc
    | some gp =>
      greedyStep S t fuel
        (cands.filter (fun q => q.1 ≠ gp.1 ∧ q.2 ≠ gp.2)) (gp :: acc)

/-- The matched `(gt, pred)` pairs of an `M×N` similarity matrix at one
threshold (at most `M` matches, one per ground-truth instance). -/
def matchAt (S : Mat) (M N : Nat) (t : ℚ) : List (Nat × Nat) :=
  greedyStep S t M (pairList M N) []

/-- Class gating: zero out `S[m][n]` whenever ground-truth class `m`
differs from predicted class `n`. -/
def gateSim (tc pc : Row) (S : Mat) : Mat :=
  List.zipWith
    (fun t row => List.zipWith (fun p s => if t = p then s else 0) pc row)
    tc S

/-- Modelled from the spec: the Matcher of §4.2
(`DetectionValidator.match_predictions`, outside the file under study).
Produces the boolean `N×T` correctness matrix: row `p`, column `t` is
`true` iff prediction `p` is matched at threshold `iouv[t]` after class
gating and greedy one-to-one assignment. -/
def matchPredictions (pc tc : Row) (S : Mat) (iouv : Row) : List (List Bool) :=
  let Sg := gateSim tc pc S
  (List.range pc.length).map (fun p =>
    iouv.map (fun t => (matchAt Sg tc.length pc.length t).any (fun gp => gp.2 = p)))

/-- The Matcher without its class gate: purely geometric greedy
one-to-one assignment on the raw similarity matrix. -/
def matchPredictionsNoGate (nPred nGt : Nat) (S : Mat) (iouv : Row) :
    List (List Bool) :=
  (List.range nPred).map (fun p =>
    iouv.map (fun t => (matchAt S nGt nPred t).any (fun gp => gp.2 = p)))

/-! ## `_process_batch` (val.py lines 226-283) -/

/-- The overlap-encoding expansion of `_process_batch` (lines 258-262):
`index = arange(nl).view(nl,1,1) + 1`, `gt_masks = gt_masks.repeat(nl,1,1)`,
`gt_masks = where(gt_masks == index, 1.0, 0.0)`.  The caller supplies a
single raster (stack of shape `(1, H, W)`); tiling it `nl` times and
comparing against the broadcast index yields, for each instance `i`, the
indicator of pixel value `i + 1`. -/
def expandOverlap (nl : Nat) (gtm : List Mask) : List Mask :=
  (((List.replicate nl gtm).flatten).zip (List.range nl)).map
    (fun mi => indicatorMask ((mi.2 : ℚ) + 1) mi.1)

/-- Ground-truth mask preparation of `_process_batch` (lines 257-265):
optional overlap expansion, then — only when the stack shapes differ —
bilinear resampling of the ground-truth masks to the predicted masks'
resolution followed by binarization at `0.5`.  The predicted masks are
never touched. -/
def prepGtMasks (nl : Nat) (gt_masks pred_masks : List Mask) (overlap : Bool) :
    List Mask :=
  let g := if overlap then expandOverlap nl gt_masks else gt_masks
  if stackShape g ≠ stackShape pred_masks then
    g.map (fun m =>
      binarizeMask (interpolate m (stackShape pred_masks).1 (stackShape pred_masks).2))
  else g

/-- The similarity matrix `_process_batch` builds (lines 257-281): mask
IoU of the prepared ground-truth masks against the predicted masks when
`masks`, else probabilistic IoU of the ground-truth boxes against
`cat([detections[:, :4], detections[:, -1:]], dim=-1)`. -/
def processBatchSim (detections gt_bboxes : Mat) (gt_cls : Row)
    (pred_masks gt_masks : List Mask) (overlap masks : Bool) : Mat :=
  if masks then
    maskIoU (prepGtMasks gt_cls.length gt_masks pred_masks overlap) pred_masks
  else
    batchProbiou gt_bboxes (catColsM (sliceCols 0 4 detections) (sliceLastCol detections))

/-- `_process_batch` (lines 226-283): the similarity matrix above fed to
the Matcher with predicted classes `detections[:, 5]`. -/
def processBatch (iouv : Row) (detections gt_bboxes : Mat) (gt_cls : Row)
    (pred_masks gt_masks : List Mask) (overlap masks : Bool) : List (List Bool) :=
  matchPredictions (colAt 5 detections) gt_cls
    (processBatchSim detections gt_bboxes gt_cls pred_masks gt_masks overlap masks) iouv

/-! ## Mask decoding and prediction preparation -/

/-- Run configuration fields `update_metrics` and `init_metrics` read. -/
structure Config where
  single_cls : Bool
  overlap_mask : Bool
  save_json : Bool
  save_txt : Bool

/-- The two mask-decode functions `init_metrics` chooses between:
`ops.process_mask_native` (more accurate) and `ops.process_mask_obb_seg`
(faster). -/
inductive DecodeMode where
  | native
  | fast
deriving DecidableEq

/-- The selection of `init_metrics` (line 54): the more accurate native
decode iff `save_json or save_txt`, else the faster decode — fixed once
per run from the configuration alone. -/
def selectProcess (cfg : Config) : DecodeMode :=
  if cfg.save_json || cfg.save_txt then DecodeMode.native else DecodeMode.fast

/-- Pointwise sum of two rasters. -/
def maskAdd (a b : Mask) : Mask :=
  List.zipWith (List.zipWith (· + ·)) a b

/-- A raster scaled by a coefficient. -/
def maskScale (c : ℚ) (m : Mask) : Mask :=
  m.map (fun row => row.map (fun v => c * v))

/-- Modelled from the spec: the common core of the two mask decoders
(§4.3 step 3, `ops.process_mask_native` / `ops.process_mask_obb_seg`,
outside the file under study): each instance's raster is a linear
combination of the prototype feature maps by its coefficient row
(box-cropping is abstracted away; no claim depends on it). -/
def decodeBase (proto : List Mask) (coeffs : Mat) : List Mask :=
  coeffs.map (fun c =>
    match List.zipWith maskScale c proto with
    | [] => []
    | m :: ms => ms.foldl maskAdd m)

/-- Modelled from the spec: the two decode modes share one interface
`(prototypes, coefficients, boxes, target shape)`; the accurate native
mode performs the final upsample-to-input-resolution step that the fast
mode skips, and both binarize the decoded rasters. -/
def decodeMask : DecodeMode → List Mask → Mat → Mat → Nat × Nat → List Mask
  | DecodeMode.native, proto, cs, _, s =>
    (decodeBase proto cs).map (fun m => binarizeMask (interpolate m s.1 s.2))
  | DecodeMode.fast, proto, cs, _, _ =>
    (decodeBase proto cs).map binarizeMask

/-- The per-sample rescale parameters (`imgsz`, `ratio_pad`,
`ori_shape`) condensed to the gain and pad the transform needs. -/
structure ScaleParams where
  gain : ℚ
  padx : ℚ
  pady : ℚ
  imgsz : Nat × Nat

/-- Modelled from the spec: `ops.scale_boxes(imgsz, boxes, ori_shape,
ratio_pad, xywh=True)` (outside the file under study) — the
letterbox-undo coordinate transform of §4.3: it affects only the four
box coordinates of a row (pad subtracted from the center, all four
divided by the gain) and leaves confidence, class, coefficients and
angle untouched. -/
def scaleRow (sp : ScaleParams) (r : Row) : Row :=
  match r with
  | x :: y :: w :: h :: rest =>
    (x - sp.padx) / sp.gain :: (y - sp.pady) / sp.gain ::
      w / sp.gain :: h / sp.gain :: rest
  | r => r

/-- `pred[:, 6:-1]`: the mask-coefficient block of a detection row. -/
def coeffSlice (r : Row) : Row :=
  (r.drop 6).dropLast

/-- `torch.cat([pred[:, :4], pred[:, -1:]], dim=1)` on one row: the four
box coordinates paired with the trailing orientation column. -/
def boxAngleRow (r : Row) : Row :=
  r.take 4 ++ [r.getLastD 0]

/-- `_prepare_pred` (lines 130-143): clone-and-rescale the detections,
and decode the predicted masks with the run's selected decode function
applied to the prototypes, the coefficient block and the box+angle
columns of the unscaled detections, at the input resolution. -/
def preparePred (cfg : Config) (sp : ScaleParams) (proto : List Mask)
    (pred : Mat) : Mat × List Mask :=
  (pred.map (scaleRow sp),
   decodeMask (selectProcess cfg) proto (pred.map coeffSlice)
     (pred.map boxAngleRow) sp.imgsz)

/-! ## `update_metrics` (lines 145-195) -/

/-- The per-sample statistics record (`stat` of `update_metrics`):
five prediction-aligned fields plus the target classes. -/
structure StatRecord where
  conf : Row
  pred_cls : Row
  tp : List (List Bool)
  tp_m : List (List Bool)
  target_cls : Row
  target_img : Row
deriving DecidableEq

/-- `torch.zeros(npr, niou, dtype=torch.bool)`. -/
def allFalse (npr niou : Nat) : List (List Bool) :=
  List.replicate npr (List.replicate niou false)

/-- `cls.unique()`: the distinct target classes (order immaterial for
the claims; modelled as deduplication). -/
def uniqueCls (cls : Row) : Row :=
  cls.dedup

/-- The ground-truth side of one sample as `_prepare_batch` returns it. -/
structure SampleBatch where
  cls : Row
  bbox : Mat
  masks : List Mask
  sp : ScaleParams

/-- One iteration of the `update_metrics` loop (lines 147-195), reduced
to the record it appends to the run statistics: `none` when nothing is
appended.  With zero predictions the record (empty confidence and class
vectors, zero-row correctness matrices, the target classes) is appended
only when ground truth is present; otherwise the class column is zeroed
under `single_cls`, the detections are rescaled and the masks decoded,
and the two correctness matrices are computed by `_process_batch`
whenever ground truth exists (they stay all-`False` when it does not). -/
def updateMetricsSample (cfg : Config) (iouv : Row) (pred : Mat)
    (proto : List Mask) (pb : SampleBatch) : Option StatRecord :=
  let npr := pred.length
  let nl := pb.cls.length
  if npr = 0 then
    if nl ≠ 0 then
      some { conf := [], pred_cls := [], tp := allFalse 0 iouv.length,
             tp_m := allFalse 0 iouv.length, target_cls := pb.cls,
             target_img := uniqueCls pb.cls }
    else none
  else
    let predz := if cfg.single_cls then pred.map (fun r => r.set 5 0) else pred
    let prepped := preparePred cfg pb.sp proto predz
    let predn := prepped.1
    let pred_masks := prepped.2
    some { conf := colAt 4 predn, pred_cls := colAt 5 predn,
           tp := if nl ≠ 0 then
               processBatch iouv predn pb.bbox pb.cls [] [] false false
             else allFalse npr iouv.length,
           tp_m := if nl ≠ 0 then
               processBatch iouv predn pb.bbox pb.cls pred_masks pb.masks
                 cfg.overlap_mask true
             else allFalse npr iouv.length,
           target_cls := pb.cls, target_img := uniqueCls pb.cls }

/-! ## `eval_json` (lines 383-410) -/

/-- The stats mapping `eval_json` receives (a Python dict keyed by
metric-name strings), modelled as a total map. -/
abbrev Stats := String → ℚ

/-- Python dict write `stats[k] = v`. -/
def setStat (s : Stats) (k : String) (v : ℚ) : Stats :=
  fun x => if x = k then v else s x

/-- Modelled from the spec: `self.metrics.keys` of `ObbSegMetrics`
(outside the file under study) — the eight box/mask metric names, in the
order the summarizer exposes them. -/
def metricsKeys : List String :=
  ["metrics/precision(B)", "metrics/recall(B)",
   "metrics/mAP50(B)", "metrics/mAP50-95(B)",
   "metrics/precision(M)", "metrics/recall(M)",
   "metrics/mAP50(M)", "metrics/mAP50-95(M)"]

/-- The writes of lines 404-407 for round `i` (0 = bbox, 1 = segm):
`stats[keys[i*4+3]], stats[keys[i*4+2]] = eval.stats[:2]`. -/
def applyCocoStats (i : Nat) (v : ℚ × ℚ) (stats : Stats) : Stats :=
  setStat (setStat stats (metricsKeys.getD (i * 4 + 3) "") v.1)
    (metricsKeys.getD (i * 4 + 2) "") v.2

/-- The gate of line 385: `save_json and is_coco and len(jdict)`. -/
structure EvalCfg where
  save_json : Bool
  is_coco : Bool
  njdict : Nat

/-- How far the `try` body of lines 389-407 gets before an exception:
it may fail before any write (missing dependency, missing file, a
failing bbox evaluation), fail between the bbox and segm rounds, or
complete both rounds. -/
inductive CocoOutcome where
  | failBefore (msg : String)
  | failBetween (box : ℚ × ℚ) (msg : String)
  | okBoth (box segm : ℚ × ℚ)

/-- `eval_json` (lines 383-410): when the gate holds, the external COCO
evaluation runs inside `try`; every exception is caught, a warning is
logged (the returned flag) and the — possibly partially updated — stats
mapping is returned instead of propagating the error. -/
def evalJson (cfg : EvalCfg) (outcome : CocoOutcome) (stats : Stats) :
    Stats × Bool :=
  if cfg.save_json && cfg.is_coco && (cfg.njdict != 0) then
    match outcome with
    | CocoOutcome.failBefore _ => (stats, true)
    | CocoOutcome.failBetween v _ => (applyCocoStats 0 v stats, true)
    | CocoOutcome.okBoth v w => (applyCocoStats 1 w (applyCocoStats 0 v stats), false)
  else (stats, false)

/-! ## General lemmas about the embedded operations -/

theorem flatten_replicate_singleton {α : Type} (n : Nat) (a : α) :
    (List.replicate n [a]).flatten = List.replicate n a := by
  induction n with
  | zero => rfl
  | succ k ih => simp [List.replicate_succ, ih]

/-- Tiling a single raster and comparing against the broadcast index is,
instance by instance, the indicator of pixel value `i + 1`. -/
theorem expandOverlap_singleton (nl : Nat) (m : Mask) :
    expandOverlap nl [m]
      = (List.range nl).map (fun i : Nat => indicatorMask ((i : ℚ) + 1) m) := by
  unfold expandOverlap
  rw [flatten_replicate_singleton]
  apply List.ext_getElem
  · simp
  · intro i h1 h2
    simp [List.getElem_zip, List.getElem_replicate, List.getElem_range,
      List.getElem_map]

theorem zipWith_mul_indicator_disjoint (l : List ℚ) (a b : ℚ) (hab : a ≠ b) :
    (List.zipWith (· * ·)
      (l.map (fun v => if v = a then (1 : ℚ) else 0))
      (l.map (fun v => if v = b then (1 : ℚ) else 0))).sum = 0 := by
  induction l with
  | nil => rfl
  | cons x xs ih =>
    simp only [List.map_cons, List.zipWith_cons_cons, List.sum_cons, ih]
    by_cases hx : x = a
    · simp [hx, hab]
    · simp [hx]

/-- Indicator masks of two distinct pixel values never overlap. -/
theorem indicator_inter_zero (m : Mask) (a b : ℚ) (hab : a ≠ b) :
    dotQ (flatMask (indicatorMask a m)) (flatMask (indicatorMask b m)) = 0 := by
  unfold dotQ flatMask indicatorMask
  rw [← List.map_flatten, ← List.map_flatten]
  exact zipWith_mul_indicator_disjoint m.flatten a b hab

/-- When the expanded overlap masks already have the predicted masks'
shape, `_process_batch` leaves them unresampled. -/
theorem prepGtMasks_overlap_no_resample (nl : Nat) (raster : Mask)
    (pred_masks : List Mask)
    (hsh : stackShape (expandOverlap nl [raster]) = stackShape pred_masks) :
    prepGtMasks nl [raster] pred_masks true = expandOverlap nl [raster] := by
  simp only [prepGtMasks, ite_true, if_true]
  rw [if_neg (not_not_intro hsh)]

theorem scaleRow_getD_four (sp : ScaleParams) (r : Row) :
    (scaleRow sp r).getD 4 0 = r.getD 4 0 := by
  match r with
  | [] => rfl
  | [x] => rfl
  | [x, y] => rfl
  | [x, y, w] => rfl
  | x :: y :: w :: h :: rest => rfl

theorem set_five_getD_four (r : Row) : (r.set 5 0).getD 4 0 = r.getD 4 0 := by
  rw [List.getD_eq_getElem?_getD, List.getD_eq_getElem?_getD,
    List.getElem?_set_ne (by norm_num)]

theorem colAt_getD (j : Nat) (m : Mat) (i : Nat) (h : i < m.length) :
    (colAt j m).getD i 0 = (m.getD i []).getD j 0 := by
  unfold colAt
  rw [List.getD_eq_getElem _ _ (by simpa using h), List.getElem_map,
    List.getD_eq_getElem _ _ h]

theorem map_getD_of_lt {α β : Type} (f : α → β) (l : List α) (i : Nat)
    (d : α) (d' : β) (h : i < l.length) :
    (l.map f).getD i d' = f (l.getD i d) := by
  rw [List.getD_eq_getElem _ _ (by simpa using h), List.getElem_map,
    List.getD_eq_getElem _ _ h]

/-- The Matcher emits one row per prediction. -/
theorem matchPredictions_length (pc tc : Row) (S : Mat) (iouv : Row) :
    (matchPredictions pc tc S iouv).length = pc.length := by
  simp [matchPredictions]

/-- Every Matcher row has one entry per IoU threshold. -/
theorem matchPredictions_row_length (pc tc : Row) (S : Mat) (iouv : Row) :
    ∀ row ∈ matchPredictions pc tc S iouv, row.length = iouv.length := by
  intro row hrow
  simp only [matchPredictions, List.mem_map, List.mem_range] at hrow
  obtain ⟨p, hp, hrw⟩ := hrow
  rw [← hrw]
  simp

theorem processBatch_length (iouv : Row) (dets gtb : Mat) (cls : Row)
    (pm gm : List Mask) (ov mk : Bool) :
    (processBatch iouv dets gtb cls pm gm ov mk).length = dets.length := by
  rw [show processBatch iouv dets gtb cls pm gm ov mk
      = matchPredictions (colAt 5 dets) cls
          (processBatchSim dets gtb cls pm gm ov mk) iouv from rfl,
    matchPredictions_length]
  simp [colAt]

theorem allFalse_length (npr niou : Nat) : (allFalse npr niou).length = npr := by
  simp [allFalse]

theorem allFalse_row_length (npr niou : Nat) :
    ∀ row ∈ allFalse npr niou, row.length = niou := by
  intro row hrow
  rw [List.eq_of_mem_replicate hrow]
  simp

theorem zipWith_gate_row (N : Nat) (row : Row) (h : row.length = N) :
    List.zipWith (fun p s => if (0 : ℚ) = p then s else 0)
      (List.replicate N 0) row = row := by
  induction row generalizing N with
  | nil => subst h; rfl
  | cons x xs ih =>
    subst h
    simp [List.replicate_succ, ih xs.length rfl]

/-- Class gating is the identity when every class on both sides is `0`. -/
theorem gateSim_zero (M N : Nat) (S : Mat) (hS : S.length = M)
    (hrows : ∀ row ∈ S, row.length = N) :
    gateSim (List.replicate M 0) (List.replicate N 0) S = S := by
  unfold gateSim
  induction S generalizing M with
  | nil => subst hS; rfl
  | cons row rows ih =>
    subst hS
    simp only [List.length_cons, List.replicate_succ, List.zipWith_cons_cons]
    rw [zipWith_gate_row N row (hrows row (by simp)),
      ih rows.length rfl (fun q hq => hrows q (by simp [hq]))]

/-- With all-zero class vectors the gated Matcher degenerates to the
purely geometric greedy assignment. -/
theorem matchPredictions_nogate (N M : Nat) (S : Mat) (iouv : Row)
    (hS : S.length = M) (hrows : ∀ row ∈ S, row.length = N) :
    matchPredictions (List.replicate N 0) (List.replicate M 0) S iouv
      = matchPredictionsNoGate N M S iouv := by
  unfold matchPredictions matchPredictionsNoGate
  rw [gateSim_zero M N S hS hrows]
  simp

theorem scaleRow_set_five_getD_five (sp : ScaleParams) (q : Row) :
    (scaleRow sp (q.set 5 0)).getD 5 0 = 0 := by
  match q with
  | [] => rfl
  | [x] => rfl
  | [x, y] => rfl
  | [x, y, w] => rfl
  | [x, y, w, h] => rfl
  | [x, y, w, h, c] => rfl
  | x :: y :: w :: h :: c :: k :: rest => rfl

/-- After class zeroing and rescaling, column 5 of the detections is
identically zero. -/
theorem colAt_five_zeroed (sp : ScaleParams) (pred : Mat) :
    colAt 5 ((pred.map (fun q => q.set 5 0)).map (scaleRow sp))
      = List.replicate pred.length 0 := by
  apply List.ext_getElem
  · simp [colAt]
  · intro i h1 h2
    simp only [colAt, List.getElem_map, List.getElem_replicate]
    exact scaleRow_set_five_getD_five sp _

theorem batchProbiou_length (gt dets : Mat) :
    (batchProbiou gt dets).length = gt.length := by
  simp [batchProbiou]

theorem batchProbiou_row_length (gt dets : Mat) :
    ∀ row ∈ batchProbiou gt dets, row.length = dets.length := by
  intro row hrow
  simp only [batchProbiou, List.mem_map] at hrow
  obtain ⟨g, hg, hrw⟩ := hrow
  rw [← hrw]
  simp

theorem catColsM_slice_length (m : Mat) :
    (catColsM (sliceCols 0 4 m) (sliceLastCol m)).length = m.length := by
  simp [catColsM, sliceCols, sliceLastCol]

/-! ## The claims -/

/-- C1: with overlap-encoded ground truth, `_process_batch` expands the
single raster into one binary mask per instance by equality-testing the
raster against the instance's 1-based index — instance `i`'s mask is the
indicator of pixel value `i + 1` — so any two distinct instances' masks
are disjoint (their flattened intersection is zero), and the expanded
stack is what mask IoU is then computed on. -/
theorem c1_overlap_expansion (gt_cls : Row) (raster : Mask)
    (pred_masks : List Mask) (iouv : Row) (dets gtb : Mat) (i j : Nat)
    (hi : i < gt_cls.length) (hj : j < gt_cls.length) (hij : i ≠ j)
    (hsh : stackShape (expandOverlap gt_cls.length [raster])
      = stackShape pred_masks) :
    (prepGtMasks gt_cls.length [raster] pred_masks true).getD i []
        = indicatorMask ((i : ℚ) + 1) raster
      ∧ dotQ (flatMask (indicatorMask ((i : ℚ) + 1) raster))
          (flatMask (indicatorMask ((j : ℚ) + 1) raster)) = 0
      ∧ processBatch iouv dets gtb gt_cls pred_masks [raster] true true
          = matchPredictions (colAt 5 dets) gt_cls
              (maskIoU (prepGtMasks gt_cls.length [raster] pred_masks true)
                pred_masks) iouv := by
  refine ⟨?_, ?_, ?_⟩
  · rw [prepGtMasks_overlap_no_resample _ _ _ hsh, expandOverlap_singleton]
    have hlen : i < ((List.range gt_cls.length).map
        (fun k : Nat => indicatorMask ((k : ℚ) + 1) raster)).length := by
      simpa using hi
    rw [List.getD_eq_getElem _ _ hlen]
    simp
  · apply indicator_inter_zero
    intro h
    exact hij (Nat.cast_injective (by exact_mod_cast add_right_cancel h))
  · rfl

/-- C2: on the box path, `_process_batch` computes the similarity matrix
with the rotated-box probabilistic IoU applied to the ground-truth boxes
and `cat([detections[:, :4], detections[:, -1:]])` — for every row of
arity `6 + K + 1` that concatenation pairs the 4 box coordinates with
the trailing angle and column 5 stays the class — and the result differs
from the axis-aligned box IoU already at a one-box input whose only
deviation is the orientation. -/
theorem c2_box_path_probiou :
    (∀ (dets gt : Mat) (cls : Row) (pm gm : List Mask) (ov : Bool),
        processBatchSim dets gt cls pm gm ov false
          = batchProbiou gt (dets.map boxAngleRow))
      ∧ (∀ (x1 y1 x2 y2 c k a : ℚ) (mid : Row),
          boxAngleRow ([x1, y1, x2, y2, c, k] ++ mid ++ [a]) = [x1, y1, x2, y2, a]
            ∧ ([x1, y1, x2, y2, c, k] ++ mid ++ [a]).getD 5 0 = k)
      ∧ ¬ (processBatchSim [[0, 0, 2, 2, 9/10, 0, 1]] [[0, 0, 2, 2, 0]] [0] [] []
            false false
          = boxIoU [[0, 0, 2, 2, 0]] (sliceCols 0 4 [[0, 0, 2, 2, 9/10, 0, 1]])) := by
  refine ⟨fun dets gt cls pm gm ov => ?_, fun x1 y1 x2 y2 c k a mid => ⟨?_, ?_⟩, ?_⟩
  · simp only [processBatchSim, Bool.false_eq_true, if_false]
    unfold catColsM sliceCols sliceLastCol
    rw [List.zipWith_map, List.zipWith_same]
    rfl
  · simp only [boxAngleRow]
    rw [List.getLastD_concat]
    simp
  · simp [List.getD_append, List.getD]
  · rw [show processBatchSim [[0, 0, 2, 2, 9/10, 0, 1]] [[0, 0, 2, 2, 0]] [0] [] []
          false false
        = [[1/2]] from by
      norm_num [processBatchSim, batchProbiou, probiouPair, catColsM, sliceCols,
        sliceLastCol]]
    rw [show boxIoU [[0, 0, 2, 2, 0]] (sliceCols 0 4 [[0, 0, 2, 2, 9/10, 0, 1]])
        = [[1]] from by norm_num [boxIoU, boxIoUPair, sliceCols]]
    norm_num

/-- C3 counterexample: for a `4×4` ground-truth raster and a `2×2`
predicted mask, the claim's "predicted masks smaller in resolution than
ground truth are upsampled before comparison" fails: the comparison
takes place at the predicted `2×2` resolution (the ground truth is
downsampled and binarized, here to the all-ones `2×2` mask), not at the
`4×4` ground-truth resolution an upsampled prediction would imply. -/
theorem c3_counterexample :
    prepGtMasks 1 [[[0, 0, 0, 0], [0, 4, 4, 0], [0, 4, 4, 0], [0, 0, 0, 0]]]
        [[[1, 0], [0, 0]]] false = [[[1, 1], [1, 1]]]
      ∧ stackShape (prepGtMasks 1
          [[[0, 0, 0, 0], [0, 4, 4, 0], [0, 4, 4, 0], [0, 0, 0, 0]]]
          [[[1, 0], [0, 0]]] false) = (2, 2)
      ∧ ¬ (stackShape (prepGtMasks 1
            [[[0, 0, 0, 0], [0, 4, 4, 0], [0, 4, 4, 0], [0, 0, 0, 0]]]
            [[[1, 0], [0, 0]]] false)
          = stackShape [[[0, 0, 0, 0], [0, 4, 4, 0], [0, 4, 4, 0], [0, 0, 0, 0]]]) := by
  set m4 : Mask := [[0, 0, 0, 0], [0, 4, 4, 0], [0, 4, 4, 0], [0, 0, 0, 0]] with hm4
  set p2 : Mask := [[1, 0], [0, 0]] with hp2
  have hb00 : bilinearSample m4 (1/2) (1/2) = 1 := by
    norm_num [bilinearSample, getPix, hm4, show ((2 : ℤ).toNat : ℕ) = 2 from rfl,
      min_self]
  have hb01 : bilinearSample m4 (1/2) (5/2) = 1 := by
    norm_num [bilinearSample, getPix, hm4, show ((2 : ℤ).toNat : ℕ) = 2 from rfl,
      min_self]
  have hb10 : bilinearSample m4 (5/2) (1/2) = 1 := by
    norm_num [bilinearSample, getPix, hm4, show ((2 : ℤ).toNat : ℕ) = 2 from rfl,
      min_self]
  have hb11 : bilinearSample m4 (5/2) (5/2) = 1 := by
    norm_num [bilinearSample, getPix, hm4, show ((2 : ℤ).toNat : ℕ) = 2 from rfl,
      min_self]
  have hi : interpolate m4 2 2 = [[1, 1], [1, 1]] := by
    rw [show interpolate m4 2 2
        = [[bilinearSample m4 (srcIndex 4 2 0) (srcIndex 4 2 0),
            bilinearSample m4 (srcIndex 4 2 0) (srcIndex 4 2 1)],
           [bilinearSample m4 (srcIndex 4 2 1) (srcIndex 4 2 0),
            bilinearSample m4 (srcIndex 4 2 1) (srcIndex 4 2 1)]]
      from by simp [interpolate, List.range_succ, hm4],
      show srcIndex 4 2 0 = 1/2 from by norm_num [srcIndex],
      show srcIndex 4 2 1 = 5/2 from by norm_num [srcIndex],
      hb00, hb01, hb10, hb11]
  have hp : prepGtMasks 1 [m4] [p2] false = [[[1, 1], [1, 1]]] := by
    rw [show prepGtMasks 1 [m4] [p2] false = [binarizeMask (interpolate m4 2 2)]
        from by simp [prepGtMasks, stackShape, maskShape, hm4, hp2], hi]
    norm_num [binarizeMask]
  refine ⟨hp, by rw [hp]; rfl, by rw [hp]; simp [stackShape, maskShape, hm4]⟩

/-- C3 amended: whenever the (possibly overlap-expanded) ground-truth
masks and the predicted masks differ in spatial resolution,
`_process_batch` resamples the ground-truth masks — bilinearly, without
alignment padding — to the *predicted* resolution and binarizes them at
`0.5`; with equal resolutions they pass through unmodified; and the
predicted masks themselves are fed to mask IoU untouched in either
case. -/
theorem c3_gt_resampled_to_pred (nl : Nat) (gms pms : List Mask) (ov : Bool)
    (iouv : Row) (dets gtb : Mat) (cls : Row) :
    (stackShape (if ov then expandOverlap nl gms else gms) ≠ stackShape pms →
        prepGtMasks nl gms pms ov
          = (if ov then expandOverlap nl gms else gms).map
              (fun m => binarizeMask
                (interpolate m (stackShape pms).1 (stackShape pms).2)))
      ∧ (stackShape (if ov then expandOverlap nl gms else gms) = stackShape pms →
          prepGtMasks nl gms pms ov = (if ov then expandOverlap nl gms else gms))
      ∧ processBatch iouv dets gtb cls pms gms ov true
          = matchPredictions (colAt 5 dets) cls
              (maskIoU (prepGtMasks cls.length gms pms ov) pms) iouv := by
  refine ⟨fun h => ?_, fun h => ?_, rfl⟩
  · simp only [prepGtMasks]
    rw [if_pos h]
  · simp only [prepGtMasks]
    rw [if_neg (not_not_intro h)]

/-- C4: for a sample with predictions but no ground-truth instances,
`update_metrics` appends a record whose box and mask correctness
matrices are the all-`False` `N × numIouThresholds` matrices — the
matching step is never invoked. -/
theorem c4_no_gt_all_false (cfg : Config) (iouv : Row) (pred : Mat)
    (proto : List Mask) (pb : SampleBatch)
    (hnl : pb.cls = []) (hnpr : pred ≠ []) :
    ∃ r, updateMetricsSample cfg iouv pred proto pb = some r
      ∧ r.tp = allFalse pred.length iouv.length
      ∧ r.tp_m = allFalse pred.length iouv.length := by
  have h0 : pred.length ≠ 0 := fun h => hnpr (List.length_eq_zero.mp h)
  simp only [updateMetricsSample, hnl, List.length_nil, ne_eq, not_true_eq_false,
    if_neg h0, if_false]
  exact ⟨_, rfl, rfl, rfl⟩

/-- C5 counterexample: for a sample with zero predictions *and* zero
ground truth, `update_metrics` appends no statistics record at all
(the claim asserts a zero-row record is appended for every
zero-prediction sample). -/
theorem c5_counterexample :
    updateMetricsSample ⟨false, false, false, false⟩ [1/2] [] []
      ⟨[], [], [], ⟨1, 0, 0, (2, 2)⟩⟩ = none := rfl

/-- C5 amended: for a sample with zero predictions, `update_metrics`
skips matching and mask preparation entirely (the result is independent
of the prototypes, ground-truth boxes, masks and scale parameters) and,
whenever any ground truth is present, appends a record with zero-row
correctness matrices, empty confidence and predicted-class vectors, the
ground-truth class vector and its distinct classes; with no ground truth
either, no record is appended. -/
theorem c5_empty_preds (cfg : Config) (iouv : Row) (proto proto' : List Mask)
    (pb : SampleBatch) (bbox' : Mat) (masks' : List Mask) (sp' : ScaleParams) :
    (pb.cls ≠ [] →
        updateMetricsSample cfg iouv [] proto pb
          = some ⟨[], [], allFalse 0 iouv.length, allFalse 0 iouv.length,
              pb.cls, uniqueCls pb.cls⟩)
      ∧ (pb.cls = [] → updateMetricsSample cfg iouv [] proto pb = none)
      ∧ updateMetricsSample cfg iouv [] proto' ⟨pb.cls, bbox', masks', sp'⟩
          = updateMetricsSample cfg iouv [] proto pb := by
  refine ⟨fun h => ?_, fun h => ?_, rfl⟩
  · have h' : pb.cls.length ≠ 0 := fun hl => h (List.length_eq_zero.mp hl)
    simp [updateMetricsSample, h']
  · simp [updateMetricsSample, h]

/-- C6: every record `update_metrics` appends is row-aligned with the
sample's prediction tensor: confidence vector, predicted-class vector
and both correctness matrices have first dimension equal to the number
of predictions, every correctness row has one entry per IoU threshold,
and row `i`'s recorded confidence is exactly column 4 of prediction row
`i` (the per-row transforms never reorder rows). -/
theorem c6_row_alignment (cfg : Config) (iouv : Row) (pred : Mat)
    (proto : List Mask) (pb : SampleBatch) (r : StatRecord)
    (h : updateMetricsSample cfg iouv pred proto pb = some r) :
    r.conf.length = pred.length
      ∧ r.pred_cls.length = pred.length
      ∧ r.tp.length = pred.length
      ∧ r.tp_m.length = pred.length
      ∧ (∀ row ∈ r.tp, row.length = iouv.length)
      ∧ (∀ row ∈ r.tp_m, row.length = iouv.length)
      ∧ ∀ i, i < pred.length → r.conf.getD i 0 = (pred.getD i []).getD 4 0 := by
  by_cases h0 : pred.length = 0
  · have hpred : pred = [] := List.length_eq_zero.mp h0
    subst hpred
    by_cases hnl : pb.cls.length = 0
    · simp [updateMetricsSample, hnl] at h
    · simp only [updateMetricsSample, List.length_nil, if_pos rfl, ne_eq, hnl,
        not_false_eq_true, if_true, Option.some.injEq] at h
      subst h
      exact ⟨rfl, rfl, rfl, rfl, by simp [allFalse], by simp [allFalse],
        fun i hi => absurd hi (by simp)⟩
  · simp only [updateMetricsSample, if_neg h0, Option.some.injEq, preparePred] at h
    subst h
    set P : Mat := if cfg.single_cls then pred.map (fun q => q.set 5 0) else pred
      with hP
    have hPlen : P.length = pred.length := by
      rw [hP]
      by_cases hsc : cfg.single_cls <;> simp [hsc]
    have hP'len : (P.map (scaleRow pb.sp)).length = pred.length := by
      simpa using hPlen
    refine ⟨?_, ?_, ?_, ?_, ?_, ?_, ?_⟩
    · simpa [colAt] using hPlen
    · simpa [colAt] using hPlen
    · by_cases hnl : pb.cls.length = 0 <;>
        simp [hnl, processBatch_length, allFalse_length, hPlen]
    · by_cases hnl : pb.cls.length = 0 <;>
        simp [hnl, processBatch_length, allFalse_length, hPlen]
    · by_cases hnl : pb.cls.length = 0 <;>
        simp only [hnl, ne_eq, not_true_eq_false, if_false, not_false_eq_true,
          if_true]
      · exact allFalse_row_length _ _
      · exact matchPredictions_row_length _ _ _ _
    · by_cases hnl : pb.cls.length = 0 <;>
        simp only [hnl, ne_eq, not_true_eq_false, if_false, not_false_eq_true,
          if_true]
      · exact allFalse_row_length _ _
      · exact matchPredictions_row_length _ _ _ _
    · intro i hi
      rw [colAt_getD 4 _ i (by simpa [hP'len] using hi),
        map_getD_of_lt (scaleRow pb.sp) P i [] [] (hPlen ▸ hi), scaleRow_getD_four]
      rw [hP]
      by_cases hsc : cfg.single_cls
      · simp only [hsc, if_true]
        rw [map_getD_of_lt (fun q => q.set 5 0) pred i [] [] hi, set_five_getD_four]
      · simp [hsc]

/-- C7: the mask-decode mode is a function of the run configuration
alone — the accurate native decode is selected iff `save_json` or
`save_txt` — both modes are called through the identical
`(prototypes, coefficients, boxes, shape)` interface by
`_prepare_pred`, the native mode is exactly the fast decode with the
final upsample-to-input-resolution step added, and two configurations
differing only in the save flags produce identical per-sample records
whenever their selected decoders return the same masks. -/
theorem c7_decode_mode_selection :
    (∀ cfg : Config, selectProcess cfg = DecodeMode.native
        ↔ (cfg.save_json = true ∨ cfg.save_txt = true))
      ∧ (∀ (cfg : Config) (sp : ScaleParams) (proto : List Mask) (pred : Mat),
          preparePred cfg sp proto pred
            = (pred.map (scaleRow sp),
               decodeMask (selectProcess cfg) proto (pred.map coeffSlice)
                 (pred.map boxAngleRow) sp.imgsz))
      ∧ (∀ (proto : List Mask) (cs b : Mat) (s : Nat × Nat),
          decodeMask DecodeMode.native proto cs b s
              = (decodeBase proto cs).map
                  (fun m => binarizeMask (interpolate m s.1 s.2))
            ∧ decodeMask DecodeMode.fast proto cs b s
              = (decodeBase proto cs).map binarizeMask)
      ∧ (∀ (sc ov j1 t1 j2 t2 : Bool) (iouv : Row) (pred : Mat)
            (proto : List Mask) (pb : SampleBatch),
          decodeMask (selectProcess ⟨sc, ov, j1, t1⟩) proto
              ((if sc then pred.map (fun q => q.set 5 0) else pred).map coeffSlice)
              ((if sc then pred.map (fun q => q.set 5 0) else pred).map boxAngleRow)
              pb.sp.imgsz
            = decodeMask (selectProcess ⟨sc, ov, j2, t2⟩) proto
                ((if sc then pred.map (fun q => q.set 5 0) else pred).map coeffSlice)
                ((if sc then pred.map (fun q => q.set 5 0) else pred).map boxAngleRow)
                pb.sp.imgsz
          → updateMetricsSample ⟨sc, ov, j1, t1⟩ iouv pred proto pb
            = updateMetricsSample ⟨sc, ov, j2, t2⟩ iouv pred proto pb) := by
  refine ⟨?_, fun cfg sp proto pred => rfl, fun proto cs b s => ⟨rfl, rfl⟩, ?_⟩
  · rintro ⟨sc, ov, sj, st⟩
    cases sj <;> cases st <;> simp [selectProcess]
  · intro sc ov j1 t1 j2 t2 iouv pred proto pb hdec
    by_cases h0 : pred.length = 0
    · simp [updateMetricsSample, h0]
    · simp only [updateMetricsSample, if_neg h0, preparePred]
      rw [hdec]

/-- C8 counterexample: when the COCO cross-check runs and succeeds,
`eval_json` does alter the stats mapping passed in — the returned stats
differ from the input stats (the box mAP50-95 entry is overwritten with
the external evaluator's value). -/
theorem c8_counterexample :
    ¬ ((evalJson ⟨true, true, 1⟩ (CocoOutcome.okBoth (1/2, 1/4) (1/3, 1/5))
        (fun _ => 0)).1 = fun _ => (0 : ℚ)) := by
  have k2 : metricsKeys[2]?.getD "" = "metrics/mAP50(B)" := rfl
  have k3 : metricsKeys[3]?.getD "" = "metrics/mAP50-95(B)" := rfl
  have k6 : metricsKeys[6]?.getD "" = "metrics/mAP50(M)" := rfl
  have k7 : metricsKeys[7]?.getD "" = "metrics/mAP50-95(M)" := rfl
  have hv : (evalJson ⟨true, true, 1⟩ (CocoOutcome.okBoth (1/2, 1/4) (1/3, 1/5))
      (fun _ => 0)).1 "metrics/mAP50-95(B)" = 1/2 := by
    norm_num +decide [evalJson, applyCocoStats, setStat, k2, k3, k6, k7]
  intro h
  have h' := congrFun h "metrics/mAP50-95(B)"
  rw [hv] at h'
  exact absurd h' (by norm_num)

/-- C8 amended: `eval_json` returns the stats mapping unchanged when the
cross-check is disabled or fails before producing results, and when the
cross-check does run it overwrites at most the four mAP entries (box and
mask mAP50 and mAP50-95) — every other key's value is preserved.  The
internally accumulated per-sample statistics are never touched. -/
theorem c8_coco_writes_scoped (cfg : EvalCfg) (o : CocoOutcome) (stats : Stats) :
    ((cfg.save_json && cfg.is_coco && (cfg.njdict != 0)) = false →
        (evalJson cfg o stats).1 = stats)
      ∧ (∀ msg, (evalJson cfg (CocoOutcome.failBefore msg) stats).1 = stats)
      ∧ (∀ k, k ≠ "metrics/mAP50(B)" → k ≠ "metrics/mAP50-95(B)"
          → k ≠ "metrics/mAP50(M)" → k ≠ "metrics/mAP50-95(M)"
          → (evalJson cfg o stats).1 k = stats k) := by
  refine ⟨fun hg => ?_, fun msg => ?_, fun k h2 h3 h6 h7 => ?_⟩
  · simp [evalJson, hg]
  · by_cases hg : (cfg.save_json && cfg.is_coco && (cfg.njdict != 0)) = true <;>
      simp [evalJson, hg]
  · have k2 : metricsKeys[2]?.getD "" = "metrics/mAP50(B)" := rfl
    have k3 : metricsKeys[3]?.getD "" = "metrics/mAP50-95(B)" := rfl
    have k6 : metricsKeys[6]?.getD "" = "metrics/mAP50(M)" := rfl
    have k7 : metricsKeys[7]?.getD "" = "metrics/mAP50-95(M)" := rfl
    by_cases hg : (cfg.save_json && cfg.is_coco && (cfg.njdict != 0)) = true
    · cases o <;>
        simp +decide [evalJson, hg, applyCocoStats, setStat, k2, k3, k6, k7,
          h2, h3, h6, h7]
    · simp [evalJson, hg]

/-- C9: when the gated COCO cross-check fails — whether before any
result is produced or between the box and mask rounds — `eval_json`
logs a warning and returns a stats mapping (the input untouched in the
first case, the box-round update in the second) instead of propagating
the exception; the failure is never fatal. -/
theorem c9_coco_failure_nonfatal (cfg : EvalCfg) (stats : Stats) (msg : String)
    (v : ℚ × ℚ)
    (hgate : (cfg.save_json && cfg.is_coco && (cfg.njdict != 0)) = true) :
    (evalJson cfg (CocoOutcome.failBefore msg) stats).1 = stats
      ∧ (evalJson cfg (CocoOutcome.failBefore msg) stats).2 = true
      ∧ (evalJson cfg (CocoOutcome.failBetween v msg) stats).1
          = applyCocoStats 0 v stats
      ∧ (evalJson cfg (CocoOutcome.failBetween v msg) stats).2 = true := by
  simp [evalJson, hgate]

/-- C10: under `single_cls`, `update_metrics` zeroes every prediction's
class column before rescaling and matching — the recorded
predicted-class vector is identically zero — and, the ground truth of a
single-class run being all class `0`, the box correctness matrix equals
the purely geometric (ungated) greedy matching on the probabilistic-IoU
similarity matrix. -/
theorem c10_single_cls_geometric (ov j t : Bool) (iouv : Row) (pred : Mat)
    (proto : List Mask) (pb : SampleBatch) (r : StatRecord)
    (h : updateMetricsSample ⟨true, ov, j, t⟩ iouv pred proto pb = some r)
    (hnpr : pred.length ≠ 0) (hnl : pb.cls.length ≠ 0)
    (hcls : pb.cls = List.replicate pb.cls.length 0)
    (hMN : pb.bbox.length = pb.cls.length) :
    r.pred_cls = List.replicate pred.length 0
      ∧ r.tp = matchPredictionsNoGate pred.length pb.cls.length
          (batchProbiou pb.bbox
            (catColsM
              (sliceCols 0 4 ((pred.map (fun q => q.set 5 0)).map (scaleRow pb.sp)))
              (sliceLastCol ((pred.map (fun q => q.set 5 0)).map (scaleRow pb.sp)))))
          iouv := by
  simp only [updateMetricsSample, if_neg hnpr, preparePred, ne_eq, hnl,
    not_false_eq_true, if_true, Option.some.injEq,
    show Config.single_cls ⟨true, ov, j, t⟩ = true from rfl] at h
  subst h
  constructor
  · exact colAt_five_zeroed pb.sp pred
  · show matchPredictions _ pb.cls _ iouv = _
    rw [show processBatchSim ((pred.map (fun r => r.set 5 0)).map (scaleRow pb.sp))
          pb.bbox pb.cls [] [] false false
        = batchProbiou pb.bbox
            (catColsM
              (sliceCols 0 4 ((pred.map (fun q => q.set 5 0)).map (scaleRow pb.sp)))
              (sliceLastCol ((pred.map (fun q => q.set 5 0)).map (scaleRow pb.sp))))
      from rfl]
    rw [colAt_five_zeroed pb.sp pred]
    conv_lhs => rw [hcls]
    apply matchPredictions_nogate
    · rw [batchProbiou_length, hMN]
    · intro row hrow
      rw [batchProbiou_row_length _ _ row hrow, catColsM_slice_length]
      simp

/-! ## Witnesses: concrete instantiations discharging the hypotheses -/

/-- C1 at a concrete 2-instance raster with pixel values 1 and 2. -/
theorem c1_overlap_expansion_witness :
    (prepGtMasks ([5, 7] : Row).length [[[1, 2], [0, 1]]] [[[1, 0], [0, 0]]]
        true).getD 0 []
        = indicatorMask (((0 : ℕ) : ℚ) + 1) [[1, 2], [0, 1]]
      ∧ dotQ (flatMask (indicatorMask (((0 : ℕ) : ℚ) + 1) [[1, 2], [0, 1]]))
          (flatMask (indicatorMask (((1 : ℕ) : ℚ) + 1) [[1, 2], [0, 1]])) = 0
      ∧ processBatch [1/2] [[0, 0, 1, 1, 1, 5, 0]] [] [5, 7] [[[1, 0], [0, 0]]]
          [[[1, 2], [0, 1]]] true true
          = matchPredictions (colAt 5 [[0, 0, 1, 1, 1, 5, 0]]) [5, 7]
              (maskIoU (prepGtMasks ([5, 7] : Row).length [[[1, 2], [0, 1]]]
                [[[1, 0], [0, 0]]] true) [[[1, 0], [0, 0]]]) [1/2] :=
  c1_overlap_expansion [5, 7] [[1, 2], [0, 1]] [[[1, 0], [0, 0]]] [1/2]
    [[0, 0, 1, 1, 1, 5, 0]] [] 0 1 (by norm_num) (by norm_num) (by norm_num)
    (by norm_num [expandOverlap, indicatorMask, stackShape, maskShape,
      List.replicate_succ, List.zip_cons_cons, List.range_succ, List.range_zero])

/-- C3 amended at concrete inputs: one mismatched-shape sample taking the
resample branch and one equal-shape sample passing through unmodified. -/
theorem c3_gt_resampled_to_pred_witness :
    prepGtMasks 1 [[[0, 0, 0, 0], [0, 4, 4, 0], [0, 4, 4, 0], [0, 0, 0, 0]]]
        [[[1, 0], [0, 0]]] false
        = (if false then
            expandOverlap 1 [[[0, 0, 0, 0], [0, 4, 4, 0], [0, 4, 4, 0], [0, 0, 0, 0]]]
          else [[[0, 0, 0, 0], [0, 4, 4, 0], [0, 4, 4, 0], [0, 0, 0, 0]]]).map
            (fun m => binarizeMask
              (interpolate m (stackShape [[[1, 0], [0, 0]]]).1
                (stackShape [[[1, 0], [0, 0]]]).2))
      ∧ prepGtMasks 1 [[[0, 1], [1, 0]]] [[[1, 0], [0, 0]]] false
          = (if false then expandOverlap 1 [[[0, 1], [1, 0]]]
             else [[[0, 1], [1, 0]]]) :=
  ⟨(c3_gt_resampled_to_pred 1
      [[[0, 0, 0, 0], [0, 4, 4, 0], [0, 4, 4, 0], [0, 0, 0, 0]]]
      [[[1, 0], [0, 0]]] false [] [] [] []).1
    (by norm_num [stackShape, maskShape]),
   (c3_gt_resampled_to_pred 1 [[[0, 1], [1, 0]]] [[[1, 0], [0, 0]]] false
      [] [] [] []).2.1
    (by norm_num [stackShape, maskShape])⟩

/-- C4 at a concrete one-prediction, zero-ground-truth sample. -/
theorem c4_no_gt_all_false_witness :
    ∃ r, updateMetricsSample ⟨false, false, false, false⟩ [1/2]
        [[0, 0, 1, 1, 9/10, 0, 0]] [] ⟨[], [], [], ⟨1, 0, 0, (2, 2)⟩⟩ = some r
      ∧ r.tp = allFalse 1 1
      ∧ r.tp_m = allFalse 1 1 :=
  c4_no_gt_all_false ⟨false, false, false, false⟩ [1/2]
    [[0, 0, 1, 1, 9/10, 0, 0]] [] ⟨[], [], [], ⟨1, 0, 0, (2, 2)⟩⟩ rfl (by simp)

/-- C5 amended at concrete inputs: a zero-prediction sample with ground
truth appends the zero-row record, one without ground truth appends
nothing. -/
theorem c5_empty_preds_witness :
    updateMetricsSample ⟨false, false, false, false⟩ [1/2] [] []
        ⟨[3], [], [], ⟨1, 0, 0, (2, 2)⟩⟩
        = some ⟨[], [], allFalse 0 1, allFalse 0 1, [3], uniqueCls [3]⟩
      ∧ updateMetricsSample ⟨false, false, false, false⟩ [1/2] [] []
          ⟨[], [], [], ⟨1, 0, 0, (2, 2)⟩⟩ = none :=
  ⟨(c5_empty_preds ⟨false, false, false, false⟩ [1/2] [] []
      ⟨[3], [], [], ⟨1, 0, 0, (2, 2)⟩⟩ [] [] ⟨1, 0, 0, (2, 2)⟩).1 (by simp),
   (c5_empty_preds ⟨false, false, false, false⟩ [1/2] [] []
      ⟨[], [], [], ⟨1, 0, 0, (2, 2)⟩⟩ [] [] ⟨1, 0, 0, (2, 2)⟩).2.1 rfl⟩

/-- C6 at a concrete one-prediction, one-ground-truth sample. -/
theorem c6_row_alignment_witness :
    (⟨[9/10], [0], [[true]], [[false]], [0], [0]⟩ : StatRecord).conf.length = 1
      ∧ (⟨[9/10], [0], [[true]], [[false]], [0], [0]⟩ : StatRecord).pred_cls.length = 1
      ∧ (⟨[9/10], [0], [[true]], [[false]], [0], [0]⟩ : StatRecord).tp.length = 1
      ∧ (⟨[9/10], [0], [[true]], [[false]], [0], [0]⟩ : StatRecord).tp_m.length = 1
      ∧ (⟨[9/10], [0], [[true]], [[false]], [0], [0]⟩ : StatRecord).conf.getD 0 0
          = (([[0, 0, 2, 2, 9/10, 0, 0]] : Mat).getD 0 []).getD 4 0 := by
  have h : updateMetricsSample ⟨false, false, false, false⟩ [1/2]
      [[0, 0, 2, 2, 9/10, 0, 0]] [] ⟨[0], [[0, 0, 2, 2, 0]], [[[1]]], ⟨1, 0, 0, (2, 2)⟩⟩
      = some ⟨[9/10], [0], [[true]], [[false]], [0], [0]⟩ := by
    norm_num [updateMetricsSample, preparePred, selectProcess, decodeMask, decodeBase,
      coeffSlice, boxAngleRow, scaleRow, colAt, processBatch, processBatchSim,
      batchProbiou, probiouPair, catColsM, sliceCols, sliceLastCol, maskIoU,
      prepGtMasks, stackShape, maskShape, interpolate, binarizeMask,
      matchPredictions, gateSim, matchAt, greedyStep, pairList, pickBest, entryQ,
      uniqueCls, allFalse, dotQ, flatMask, maskSum, List.range_succ, List.dedup]
  have hall := c6_row_alignment ⟨false, false, false, false⟩ [1/2]
    [[0, 0, 2, 2, 9/10, 0, 0]] [] ⟨[0], [[0, 0, 2, 2, 0]], [[[1]]], ⟨1, 0, 0, (2, 2)⟩⟩
    ⟨[9/10], [0], [[true]], [[false]], [0], [0]⟩ h
  exact ⟨hall.1, hall.2.1, hall.2.2.1, hall.2.2.2.1,
    hall.2.2.2.2.2.2 0 (by norm_num)⟩

/-- C7 at two concrete configurations that differ only in which save
flag forces the native decode: the per-sample records coincide. -/
theorem c7_decode_mode_selection_witness :
    updateMetricsSample ⟨false, false, true, false⟩ [1/2] [[0, 0, 1, 1, 9/10, 0, 0]]
        [] ⟨[0], [[0, 0, 1, 1, 0]], [[[1]]], ⟨1, 0, 0, (2, 2)⟩⟩
      = updateMetricsSample ⟨false, false, false, true⟩ [1/2]
          [[0, 0, 1, 1, 9/10, 0, 0]] []
          ⟨[0], [[0, 0, 1, 1, 0]], [[[1]]], ⟨1, 0, 0, (2, 2)⟩⟩ :=
  c7_decode_mode_selection.2.2.2 false false true false false true [1/2]
    [[0, 0, 1, 1, 9/10, 0, 0]] [] ⟨[0], [[0, 0, 1, 1, 0]], [[[1]]], ⟨1, 0, 0, (2, 2)⟩⟩
    rfl

/-- C8 amended at concrete inputs: a disabled cross-check leaves stats
untouched, and a successful run leaves a non-mAP key untouched. -/
theorem c8_coco_writes_scoped_witness :
    (evalJson ⟨false, true, 1⟩ (CocoOutcome.okBoth (1, 1) (1, 1))
        (fun _ => 0)).1 = (fun _ => (0 : ℚ))
      ∧ (evalJson ⟨true, true, 1⟩ (CocoOutcome.okBoth (1, 1) (1, 1))
          (fun _ => 0)).1 "metrics/precision(B)"
        = (fun _ => (0 : ℚ)) "metrics/precision(B)" :=
  ⟨(c8_coco_writes_scoped ⟨false, true, 1⟩ (CocoOutcome.okBoth (1, 1) (1, 1))
      (fun _ => 0)).1 rfl,
   (c8_coco_writes_scoped ⟨true, true, 1⟩ (CocoOutcome.okBoth (1, 1) (1, 1))
      (fun _ => 0)).2.2 "metrics/precision(B)"
    (by decide) (by decide) (by decide) (by decide)⟩

/-- C9 at a concrete gated configuration and failure outcomes. -/
theorem c9_coco_failure_nonfatal_witness :
    (evalJson ⟨true, true, 1⟩ (CocoOutcome.failBefore "io error")
        (fun _ => 0)).1 = (fun _ => (0 : ℚ))
      ∧ (evalJson ⟨true, true, 1⟩ (CocoOutcome.failBefore "io error")
          (fun _ => 0)).2 = true
      ∧ (evalJson ⟨true, true, 1⟩
          (CocoOutcome.failBetween (1, 1) "io error") (fun _ => 0)).1
          = applyCocoStats 0 (1, 1) (fun _ => 0)
      ∧ (evalJson ⟨true, true, 1⟩
          (CocoOutcome.failBetween (1, 1) "io error") (fun _ => 0)).2 = true :=
  c9_coco_failure_nonfatal ⟨true, true, 1⟩ (fun _ => 0) "io error" (1, 1) rfl

/-- C10 at a concrete single-class sample whose prediction carries a
nonzero class id that gets zeroed. -/
theorem c10_single_cls_geometric_witness :
    (⟨[9/10], [0], [[true]], [[false]], [0], [0]⟩ : StatRecord).pred_cls
        = List.replicate 1 0
      ∧ (⟨[9/10], [0], [[true]], [[false]], [0], [0]⟩ : StatRecord).tp
          = matchPredictionsNoGate 1 1
            (batchProbiou [[0, 0, 2, 2, 0]]
              (catColsM
                (sliceCols 0 4 ((([[0, 0, 2, 2, 9/10, 3, 0]] : Mat).map
                  (fun q => q.set 5 0)).map (scaleRow ⟨1, 0, 0, (2, 2)⟩)))
                (sliceLastCol ((([[0, 0, 2, 2, 9/10, 3, 0]] : Mat).map
                  (fun q => q.set 5 0)).map (scaleRow ⟨1, 0, 0, (2, 2)⟩)))))
            [1/2] := by
  have h : updateMetricsSample ⟨true, false, false, false⟩ [1/2]
      [[0, 0, 2, 2, 9/10, 3, 0]] []
      ⟨[0], [[0, 0, 2, 2, 0]], [[[1]]], ⟨1, 0, 0, (2, 2)⟩⟩
      = some ⟨[9/10], [0], [[true]], [[false]], [0], [0]⟩ := by
    norm_num [updateMetricsSample, preparePred, selectProcess, decodeMask, decodeBase,
      coeffSlice, boxAngleRow, scaleRow, colAt, processBatch, processBatchSim,
      batchProbiou, probiouPair, catColsM, sliceCols, sliceLastCol, maskIoU,
      prepGtMasks, stackShape, maskShape, interpolate, binarizeMask,
      matchPredictions, gateSim, matchAt, greedyStep, pairList, pickBest, entryQ,
      uniqueCls, allFalse, dotQ, flatMask, maskSum, List.range_succ, List.dedup]
  exact c10_single_cls_geometric false false false [1/2] [[0, 0, 2, 2, 9/10, 3, 0]]
    [] ⟨[0], [[0, 0, 2, 2, 0]], [[[1]]], ⟨1, 0, 0, (2, 2)⟩⟩
    ⟨[9/10], [0], [[true]], [[false]], [0], [0]⟩ h (by norm_num) (by norm_num)
    rfl rfl

end ObbSeg
